import Mathlib

/-!
Verification of the VASUDHA-GEOTECHCALC bearing-capacity engine.

The engine (`calculateBearingCapacity` in `src/types.ts`) is a pure function
from soil, foundation, loading, water-table and safety-factor inputs to a flat
record of derived geotechnical quantities.  We embed it shallowly over the real
numbers: JavaScript numbers become `ℝ`, the `number | null` water-table input
and the optional `spt_n` / `Es` fields become `Option ℝ`, and the `NaN`
sentinel stored in the `qa_spt` result field becomes `none`.  The JavaScript
truthiness test `soil.spt_n ?` (falsy exactly at 0 and absence) is embedded
explicitly as a test against `0`.
-/

open scoped Classical

namespace VasudhaGeotech

/-- The closed set of soil classifications (`SoilType` in `src/types.ts`). -/
inductive SoilType
  | cohesionlessSand
  | cohesiveClay
  | cPhiSoil
  | rock
  | other
  deriving DecidableEq

/-- The closed set of foundation shapes (`FoundationShape` in `src/types.ts`). -/
inductive FoundationShape
  | strip
  | square
  | rectangular
  | circular
  deriving DecidableEq

/-- `SoilProperties` from `src/types.ts`; optional numeric fields are `Option ℝ`. -/
structure SoilProperties where
  type : SoilType
  c : ℝ
  phi : ℝ
  gamma : ℝ
  gamma_sub : ℝ
  spt_n : Option ℝ
  Es : Option ℝ

/-- `FoundationProperties` from `src/types.ts`. -/
structure FoundationProperties where
  shape : FoundationShape
  B : ℝ
  L : ℝ
  Df : ℝ

/-- `LoadingConditions` from `src/types.ts`. -/
structure LoadingConditions where
  V : ℝ
  H : ℝ
  Mx : ℝ
  My : ℝ

/-- The status literal union of `CalculationResults.status`. -/
inductive Status
  | SAFE
  | SETTLEMENT_GOVERNING
  | HIGH_ECCENTRICITY
  deriving DecidableEq

/-- `CalculationResults` from `src/types.ts`.  `qa_spt` is `NaN` in the source
when no SPT value is used; `NaN` is modelled as `none`. -/
structure CalculationResults where
  SoilType : SoilType
  Cohesion : ℝ
  FrictionAngle : ℝ
  UnitWeight : ℝ
  FoundationShape : FoundationShape
  FoundationWidth : ℝ
  FoundationLength : ℝ
  FoundationDepth : ℝ
  FOS : ℝ
  ex : ℝ
  ey : ℝ
  B_prime : ℝ
  L_prime : ℝ
  eccentricity_check : Prop
  Nc : ℝ
  Nq : ℝ
  Ngamma : ℝ
  sc : ℝ
  sq : ℝ
  sgamma : ℝ
  dc : ℝ
  dq : ℝ
  dgamma : ℝ
  ic : ℝ
  iq : ℝ
  igamma : ℝ
  W_prime : ℝ
  term1 : ℝ
  term2 : ℝ
  term3 : ℝ
  qu : ℝ
  qnu : ℝ
  qns : ℝ
  qs : ℝ
  qa_spt : Option ℝ
  recommended_sbc : ℝ
  settlement : ℝ
  status : Status

/-- `deg2rad` from `src/types.ts`. -/
noncomputable def deg2rad (deg : ℝ) : ℝ :=
  deg * Real.pi / 180

/-- `rad2deg` from `src/types.ts`. -/
noncomputable def rad2deg (rad : ℝ) : ℝ :=
  rad * 180 / Real.pi

/-- `allowablePressureSPT` from `src/types.ts`: the empirical allowable
pressure lookup keyed by soil classification and SPT N-value. -/
noncomputable def allowablePressureSPT (soilType : SoilType) (N : ℝ) : ℝ :=
  match soilType with
  | .cohesionlessSand =>
      if N < 10 then 50 + 5 * (N - 5)
      else if N < 30 then 100 + 10 * (N - 10)
      else 300
  | .cohesiveClay =>
      if N < 4 then 50
      else if N < 8 then 80
      else if N < 15 then 100
      else 200
  | .cPhiSoil => 100 + 10 * N
  | .rock => 500
  | .other => 150

/-- Step 1 of the engine: `ex = V !== 0 ? Math.abs(My / V) : 0`. -/
noncomputable def ex_of (V My : ℝ) : ℝ :=
  if V ≠ 0 then |My / V| else 0

/-- Step 1 of the engine: `ey = V !== 0 ? Math.abs(Mx / V) : 0`. -/
noncomputable def ey_of (V Mx : ℝ) : ℝ :=
  if V ≠ 0 then |Mx / V| else 0

/-- Step 1 of the engine: effective dimension `max(dim - 2 * e, 0.1)`. -/
noncomputable def effective_dim (dim e : ℝ) : ℝ :=
  max (dim - 2 * e) 0.1

/-- Step 2 of the engine: the surcharge `q_surcharge`, initialised to
`gamma * Df` and overwritten when a water table at or above the base is
supplied. -/
noncomputable def q_surcharge_of (gamma gamma_sub Df : ℝ)
    (water_table_depth : Option ℝ) : ℝ :=
  match water_table_depth with
  | none => gamma * Df
  | some dw =>
      if dw ≤ Df then gamma * dw + gamma_sub * (Df - dw)
      else gamma * Df

/-- Step 2 of the engine: the self-weight water-table correction factor
`W_prime`, initialised to `1.0` and overwritten when a water-table depth is
supplied, using the three source branches in order. -/
noncomputable def W_prime_of (Df B : ℝ) (water_table_depth : Option ℝ) : ℝ :=
  match water_table_depth with
  | none => 1.0
  | some dw =>
      if dw ≤ Df then 0.5
      else if dw ≥ Df + B then 1.0
      else 0.5 * (1 + (dw - Df) / B)

/-- Step 3 of the engine, `Nq` branch (the source computes `Nq`, `Nc`,
`Ngamma` inside a single `if (soil.phi > 0)`; here each factor carries its own
copy of that test). -/
noncomputable def Nq_of (phi : ℝ) : ℝ :=
  if phi > 0 then
    Real.exp (Real.pi * Real.tan (deg2rad phi)) *
      Real.tan (Real.pi / 4 + deg2rad phi / 2) ^ 2
  else 1

/-- Step 3 of the engine, `Nc` branch. -/
noncomputable def Nc_of (phi : ℝ) : ℝ :=
  if phi > 0 then (Nq_of phi - 1) / Real.tan (deg2rad phi) else 5.14

/-- Step 3 of the engine, `Ngamma` branch. -/
noncomputable def Ngamma_of (phi : ℝ) : ℝ :=
  if phi > 0 then 2 * (Nq_of phi + 1) * Real.tan (deg2rad phi) else 0

/-- Step 6 of the engine: the load inclination angle in degrees,
`alpha = V > 0 ? rad2deg(Math.atan(H / V)) : 0`. -/
noncomputable def alpha_calc (V H : ℝ) : ℝ :=
  if V > 0 then rad2deg (Real.arctan (H / V)) else 0

/-- Step 6 of the engine: `phi_temp = soil.phi === 0 ? 0.001 : soil.phi`. -/
noncomputable def phi_temp_calc (phi : ℝ) : ℝ :=
  if phi = 0 then 0.001 else phi

/-- Step 12 of the engine: status classification in fixed priority order. -/
noncomputable def status_of (settlement : ℝ) (ecc : Prop) : Status :=
  if settlement > 25 then .SETTLEMENT_GOVERNING
  else if ecc then .HIGH_ECCENTRICITY
  else .SAFE

/-- `calculateBearingCapacity` from `src/types.ts`, stage by stage in source
order. -/
noncomputable def calculateBearingCapacity (soil : SoilProperties)
    (foundation : FoundationProperties) (load : LoadingConditions)
    (water_table_depth : Option ℝ) (FOS : ℝ) : CalculationResults :=
  let V := load.V
  let Mx := load.Mx
  let My := load.My
  let H := load.H
  let B := foundation.B
  let L := foundation.L
  let Df := foundation.Df
  let shape := foundation.shape
  -- 1. Eccentricity and effective dimensions
  let ex := ex_of V My
  let ey := ey_of V Mx
  let B_prime := effective_dim B ex
  let L_prime := effective_dim L ey
  let eccentricity_check : Prop := ex / B > 1 / 6 ∨ ey / L > 1 / 6
  -- 2. IS 6403 water table corrections
  let q_surcharge := q_surcharge_of soil.gamma soil.gamma_sub Df water_table_depth
  let W_prime := W_prime_of Df B water_table_depth
  let gamma_eff := soil.gamma * W_prime
  -- 3. Bearing capacity factors (IS 6403:1981)
  let Nq := Nq_of soil.phi
  let Nc := Nc_of soil.phi
  let Ngamma := Ngamma_of soil.phi
  -- 4. Shape factors (in the source: `sc = sq = sgamma = 1` then a switch)
  let sc : ℝ :=
    match shape with
    | .strip => 1.0
    | .square => if soil.phi > 0 then 1 + 0.2 * (B_prime / L_prime) else 1.3
    | .rectangular => 1 + 0.2 * (B_prime / L_prime)
    | .circular => 1.3
  let sq : ℝ :=
    match shape with
    | .strip => 1.0
    | .square =>
        if soil.phi > 0 then
          1 + 0.2 * (B_prime / L_prime) * Real.tan (deg2rad (45 + soil.phi / 2))
        else 1.0
    | .rectangular =>
        1 + 0.2 * (B_prime / L_prime) * Real.tan (deg2rad (45 + soil.phi / 2))
    | .circular => 1.2
  let sgamma : ℝ :=
    match shape with
    | .strip => 1.0
    | .square => 0.8
    | .rectangular => 1 - 0.4 * (B_prime / L_prime)
    | .circular => 0.6
  -- 5. Depth factors (IS 6403 simplified)
  let D_B := Df / B
  let factor := if D_B ≤ 1 then D_B else Real.arctan D_B
  let dc := 1 + 0.2 * factor * Real.tan (deg2rad (45 + soil.phi / 2))
  let dq := 1 + 0.1 * factor * Real.tan (deg2rad (45 + soil.phi / 2))
  let dgamma : ℝ := 1.0
  -- 6. Inclination factors
  let alpha := alpha_calc V H
  let phi_temp := phi_temp_calc soil.phi
  let ic := (1 - alpha / 90) ^ 2
  let iq := ic
  let igamma := (1 - alpha / phi_temp) ^ 2
  -- 7. Calculate terms
  let term1 := soil.c * Nc * sc * dc * ic
  let term2 := q_surcharge * Nq * sq * dq * iq
  let term3 := 0.5 * gamma_eff * B_prime * Ngamma * sgamma * dgamma * igamma
  -- 8. Capacities
  let qu := term1 + term2 + term3
  let qnu := qu - q_surcharge
  let qns := qnu / FOS
  let qs := qns + q_surcharge
  -- 9. SPT check (`soil.spt_n ? ... : NaN`; 0 is falsy, NaN becomes `none`)
  let qa_spt : Option ℝ :=
    match soil.spt_n with
    | none => none
    | some n => if n = 0 then none else some (allowablePressureSPT soil.type n)
  -- 10. Recommended safe pressure (`!isNaN(qa_spt) ? min(qs, qa_spt) : qs`)
  let recommended_sbc : ℝ :=
    match qa_spt with
    | some qa => min qs qa
    | none => qs
  -- 11. Settlement (`soil.Es && soil.Es > 0` is falsy at 0 and absence;
  -- mu = 0.3, I = 0.82)
  let settlement : ℝ :=
    match soil.Es with
    | some es =>
        if es > 0 then qs * B * (1 - (0.3 : ℝ) ^ 2) * 0.82 / es * 1000
        else if soil.type = .cohesiveClay then qs / 50 * 25 else qs / 100 * 15
    | none =>
        if soil.type = .cohesiveClay then qs / 50 * 25 else qs / 100 * 15
  -- 12. Determine Status
  let status := status_of settlement eccentricity_check
  ⟨soil.type, soil.c, soil.phi, soil.gamma, shape, B, L, Df, FOS,
    ex, ey, B_prime, L_prime, eccentricity_check,
    Nc, Nq, Ngamma, sc, sq, sgamma, dc, dq, dgamma, ic, iq, igamma,
    W_prime, term1, term2, term3, qu, qnu, qns, qs,
    qa_spt, recommended_sbc, settlement, status⟩

/-! Field lemmas: each projection of the returned record is the corresponding
stage value.  All hold by unfolding the definition. -/

section FieldLemmas

variable (soil : SoilProperties) (foundation : FoundationProperties)
variable (load : LoadingConditions) (water_table_depth : Option ℝ) (FOS : ℝ)

lemma res_ex :
    (calculateBearingCapacity soil foundation load water_table_depth FOS).ex =
      ex_of load.V load.My := rfl

lemma res_ey :
    (calculateBearingCapacity soil foundation load water_table_depth FOS).ey =
      ey_of load.V load.Mx := rfl

lemma res_B_prime :
    (calculateBearingCapacity soil foundation load water_table_depth FOS).B_prime =
      effective_dim foundation.B (ex_of load.V load.My) := rfl

lemma res_L_prime :
    (calculateBearingCapacity soil foundation load water_table_depth FOS).L_prime =
      effective_dim foundation.L (ey_of load.V load.Mx) := rfl

lemma res_Nc :
    (calculateBearingCapacity soil foundation load water_table_depth FOS).Nc =
      Nc_of soil.phi := rfl

lemma res_Nq :
    (calculateBearingCapacity soil foundation load water_table_depth FOS).Nq =
      Nq_of soil.phi := rfl

lemma res_Ngamma :
    (calculateBearingCapacity soil foundation load water_table_depth FOS).Ngamma =
      Ngamma_of soil.phi := rfl

lemma res_W_prime :
    (calculateBearingCapacity soil foundation load water_table_depth FOS).W_prime =
      W_prime_of foundation.Df foundation.B water_table_depth := rfl

lemma res_ic :
    (calculateBearingCapacity soil foundation load water_table_depth FOS).ic =
      (1 - alpha_calc load.V load.H / 90) ^ 2 := rfl

lemma res_iq :
    (calculateBearingCapacity soil foundation load water_table_depth FOS).iq =
      (calculateBearingCapacity soil foundation load water_table_depth FOS).ic := rfl

lemma res_igamma :
    (calculateBearingCapacity soil foundation load water_table_depth FOS).igamma =
      (1 - alpha_calc load.V load.H / phi_temp_calc soil.phi) ^ 2 := rfl

lemma res_status :
    (calculateBearingCapacity soil foundation load water_table_depth FOS).status =
      status_of
        (calculateBearingCapacity soil foundation load water_table_depth FOS).settlement
        (calculateBearingCapacity soil foundation load water_table_depth FOS).eccentricity_check :=
  rfl

lemma res_qa_spt :
    (calculateBearingCapacity soil foundation load water_table_depth FOS).qa_spt =
      (match soil.spt_n with
        | none => none
        | some n => if n = 0 then none else some (allowablePressureSPT soil.type n)) := rfl

lemma res_recommended_sbc :
    (calculateBearingCapacity soil foundation load water_table_depth FOS).recommended_sbc =
      (match (calculateBearingCapacity soil foundation load water_table_depth FOS).qa_spt with
        | some qa => min (calculateBearingCapacity soil foundation load water_table_depth FOS).qs qa
        | none => (calculateBearingCapacity soil foundation load water_table_depth FOS).qs) := rfl

end FieldLemmas

/-- C1 (code observation): at the non-positive safety factor `FOS = -1` the
engine does not surface any invalid-configuration condition: it returns a
complete numeric record, silently computing `qns = qnu / FOS = -514`,
`qs = -514` and a status. -/
theorem C1_fos_nonpositive_not_rejected :
    (calculateBearingCapacity ⟨.cohesiveClay, 100, 0, 18, 10, none, none⟩
        ⟨.strip, 1, 1, 0⟩ ⟨0, 0, 0, 0⟩ none (-1)).qns = -514 ∧
    (calculateBearingCapacity ⟨.cohesiveClay, 100, 0, 18, 10, none, none⟩
        ⟨.strip, 1, 1, 0⟩ ⟨0, 0, 0, 0⟩ none (-1)).qs = -514 ∧
    (calculateBearingCapacity ⟨.cohesiveClay, 100, 0, 18, 10, none, none⟩
        ⟨.strip, 1, 1, 0⟩ ⟨0, 0, 0, 0⟩ none (-1)).status = .SAFE := by
  refine ⟨?_, ?_, ?_⟩ <;>
    simp only [calculateBearingCapacity] <;>
    norm_num [ex_of, ey_of, effective_dim, q_surcharge_of, W_prime_of, Nc_of, Nq_of,
      Ngamma_of, alpha_calc, phi_temp_calc, status_of, max_def]

/-- C7 (code observation): a supplied SPT count of exactly `0` is falsy in the
source's truthiness test, so the empirical check is skipped: `qa_spt` is the
`NaN` sentinel (`none`) and the recommendation is `qs = 257` alone, although
the lookup table at count `0` gives `50` and `min(qs, 50) ≠ qs`. -/
theorem C7_spt_zero_treated_as_absent :
    (calculateBearingCapacity ⟨.cohesiveClay, 100, 0, 18, 10, some 0, none⟩
        ⟨.strip, 1, 1, 0⟩ ⟨0, 0, 0, 0⟩ none 2).qa_spt = none ∧
    (calculateBearingCapacity ⟨.cohesiveClay, 100, 0, 18, 10, some 0, none⟩
        ⟨.strip, 1, 1, 0⟩ ⟨0, 0, 0, 0⟩ none 2).recommended_sbc = 257 ∧
    allowablePressureSPT .cohesiveClay 0 = 50 ∧
    min (257 : ℝ) 50 ≠ 257 := by
  refine ⟨?_, ?_, ?_, ?_⟩
  · rw [res_qa_spt]
    norm_num
  · simp only [calculateBearingCapacity]
    norm_num [ex_of, ey_of, effective_dim, q_surcharge_of, W_prime_of, Nc_of, Nq_of,
      Ngamma_of, alpha_calc, phi_temp_calc, max_def]
  · norm_num [allowablePressureSPT]
  · norm_num [min_def]

/-- C2 (amended): for every input with `V = 0` the eccentricities are exactly
`ex = ey = 0` (no division fault); and whenever the raw dimensions are at
least the `0.1` floor, the effective dimensions equal the raw dimensions,
`B_prime = B` and `L_prime = L`. -/
theorem C2_zero_load_geometry (soil : SoilProperties) (foundation : FoundationProperties)
    (load : LoadingConditions) (water_table_depth : Option ℝ) (FOS : ℝ)
    (hV : load.V = 0) :
    (calculateBearingCapacity soil foundation load water_table_depth FOS).ex = 0 ∧
    (calculateBearingCapacity soil foundation load water_table_depth FOS).ey = 0 ∧
    (0.1 ≤ foundation.B →
      (calculateBearingCapacity soil foundation load water_table_depth FOS).B_prime =
        foundation.B) ∧
    (0.1 ≤ foundation.L →
      (calculateBearingCapacity soil foundation load water_table_depth FOS).L_prime =
        foundation.L) := by
  have hex : ex_of load.V load.My = 0 := by simp [ex_of, hV]
  have hey : ey_of load.V load.Mx = 0 := by simp [ey_of, hV]
  refine ⟨?_, ?_, fun hB => ?_, fun hL => ?_⟩
  · rw [res_ex, hex]
  · rw [res_ey, hey]
  · rw [res_B_prime, hex]
    unfold effective_dim
    rw [mul_zero, sub_zero]
    exact max_eq_left hB
  · rw [res_L_prime, hey]
    unfold effective_dim
    rw [mul_zero, sub_zero]
    exact max_eq_left hL

/-- Witness for C2 at a concrete zero-load input with `B = 2`, `L = 3`. -/
theorem C2_zero_load_geometry_witness :
    (calculateBearingCapacity ⟨.other, 0, 0, 18, 10, none, none⟩
        ⟨.rectangular, 2, 3, 0.5⟩ ⟨0, 0, 4, 7⟩ none 3).ex = 0 ∧
    (calculateBearingCapacity ⟨.other, 0, 0, 18, 10, none, none⟩
        ⟨.rectangular, 2, 3, 0.5⟩ ⟨0, 0, 4, 7⟩ none 3).ey = 0 ∧
    (calculateBearingCapacity ⟨.other, 0, 0, 18, 10, none, none⟩
        ⟨.rectangular, 2, 3, 0.5⟩ ⟨0, 0, 4, 7⟩ none 3).B_prime = 2 ∧
    (calculateBearingCapacity ⟨.other, 0, 0, 18, 10, none, none⟩
        ⟨.rectangular, 2, 3, 0.5⟩ ⟨0, 0, 4, 7⟩ none 3).L_prime = 3 := by
  have h := C2_zero_load_geometry ⟨.other, 0, 0, 18, 10, none, none⟩
    ⟨.rectangular, 2, 3, 0.5⟩ ⟨0, 0, 4, 7⟩ none 3 rfl
  exact ⟨h.1, h.2.1, h.2.2.1 (by norm_num), h.2.2.2 (by norm_num)⟩

/-- Counterexample to C2 as stated: with `V = 0` and `B = 0.05` below the
floor, `B_prime` is the floor `0.1`, not the raw width `0.05`. -/
theorem C2_counterexample :
    (calculateBearingCapacity ⟨.other, 0, 0, 18, 10, none, none⟩
        ⟨.strip, 0.05, 0.05, 0⟩ ⟨0, 0, 0, 0⟩ none 2).B_prime = 0.1 ∧
    (0.1 : ℝ) ≠ 0.05 := by
  refine ⟨?_, by norm_num⟩
  rw [res_B_prime]
  norm_num [ex_of, effective_dim, max_def]

/-- C3: for every input with friction angle `φ = 0`, the returned
bearing-capacity factors are exactly `Nc = 5.14`, `Nq = 1`, `Nγ = 0`,
regardless of all other inputs. -/
theorem C3_phi_zero_factors (soil : SoilProperties) (foundation : FoundationProperties)
    (load : LoadingConditions) (water_table_depth : Option ℝ) (FOS : ℝ)
    (hphi : soil.phi = 0) :
    (calculateBearingCapacity soil foundation load water_table_depth FOS).Nc = 5.14 ∧
    (calculateBearingCapacity soil foundation load water_table_depth FOS).Nq = 1 ∧
    (calculateBearingCapacity soil foundation load water_table_depth FOS).Ngamma = 0 := by
  refine ⟨?_, ?_, ?_⟩ <;>
    simp only [res_Nc, res_Nq, res_Ngamma, hphi] <;>
    norm_num [Nc_of, Nq_of, Ngamma_of]

/-- Witness for C3 at a concrete purely cohesive input. -/
theorem C3_phi_zero_factors_witness :
    (calculateBearingCapacity ⟨.cohesiveClay, 25, 0, 18, 10, none, none⟩
        ⟨.strip, 1, 1, 0⟩ ⟨0, 0, 0, 0⟩ none 3).Nc = 5.14 ∧
    (calculateBearingCapacity ⟨.cohesiveClay, 25, 0, 18, 10, none, none⟩
        ⟨.strip, 1, 1, 0⟩ ⟨0, 0, 0, 0⟩ none 3).Nq = 1 ∧
    (calculateBearingCapacity ⟨.cohesiveClay, 25, 0, 18, 10, none, none⟩
        ⟨.strip, 1, 1, 0⟩ ⟨0, 0, 0, 0⟩ none 3).Ngamma = 0 :=
  C3_phi_zero_factors ⟨.cohesiveClay, 25, 0, 18, 10, none, none⟩
    ⟨.strip, 1, 1, 0⟩ ⟨0, 0, 0, 0⟩ none 3 rfl

/-- C4 (amended): the water-table correction follows the source's ordered
piecewise definition (first matching case wins): absent table gives
`W_prime = 1` and surcharge `γ·Df`; `Dw ≤ Df` gives `W_prime = 0.5` and
surcharge `γ·Dw + γ_sub·(Df − Dw)`; otherwise `Dw ≥ Df + B` gives
`W_prime = 1`; otherwise the linear interpolation.  At `Dw = Df` the value is
`0.5`, and at `Dw = Df + B` it is `1` provided `B > 0`. -/
theorem C4_water_table_piecewise (soil : SoilProperties)
    (foundation : FoundationProperties) (load : LoadingConditions) (FOS : ℝ) :
    ((calculateBearingCapacity soil foundation load none FOS).W_prime = 1 ∧
      q_surcharge_of soil.gamma soil.gamma_sub foundation.Df none =
        soil.gamma * foundation.Df) ∧
    (∀ dw : ℝ, dw ≤ foundation.Df →
      (calculateBearingCapacity soil foundation load (some dw) FOS).W_prime = 0.5 ∧
      q_surcharge_of soil.gamma soil.gamma_sub foundation.Df (some dw) =
        soil.gamma * dw + soil.gamma_sub * (foundation.Df - dw)) ∧
    (∀ dw : ℝ, ¬ dw ≤ foundation.Df → dw ≥ foundation.Df + foundation.B →
      (calculateBearingCapacity soil foundation load (some dw) FOS).W_prime = 1) ∧
    (∀ dw : ℝ, ¬ dw ≤ foundation.Df → ¬ dw ≥ foundation.Df + foundation.B →
      (calculateBearingCapacity soil foundation load (some dw) FOS).W_prime =
        0.5 * (1 + (dw - foundation.Df) / foundation.B)) ∧
    (calculateBearingCapacity soil foundation load (some foundation.Df) FOS).W_prime =
      0.5 ∧
    (0 < foundation.B →
      (calculateBearingCapacity soil foundation load
          (some (foundation.Df + foundation.B)) FOS).W_prime = 1) := by
  refine ⟨⟨?_, ?_⟩, fun dw h => ⟨?_, ?_⟩, fun dw h1 h2 => ?_, fun dw h1 h2 => ?_, ?_, fun hB => ?_⟩
  · rw [res_W_prime]; norm_num [W_prime_of]
  · norm_num [q_surcharge_of]
  · rw [res_W_prime]; simp only [W_prime_of]; rw [if_pos h]
  · simp only [q_surcharge_of]; rw [if_pos h]
  · rw [res_W_prime]; simp only [W_prime_of]; rw [if_neg h1, if_pos h2]; norm_num
  · rw [res_W_prime]; simp only [W_prime_of]; rw [if_neg h1, if_neg h2]
  · rw [res_W_prime]; simp only [W_prime_of]; rw [if_pos le_rfl]
  · rw [res_W_prime]; simp only [W_prime_of]
    rw [if_neg (by linarith), if_pos le_rfl]; norm_num

/-- Witness for C4 in the interpolation regime: `Df = 1`, `B = 2`, `Dw = 2`
gives `W_prime = 0.5 · (1 + 1/2) = 0.75`. -/
theorem C4_water_table_piecewise_witness :
    (calculateBearingCapacity ⟨.other, 0, 0, 18, 10, none, none⟩
        ⟨.strip, 2, 2, 1⟩ ⟨0, 0, 0, 0⟩ (some 2) 3).W_prime = 0.75 := by
  have h := (C4_water_table_piecewise ⟨.other, 0, 0, 18, 10, none, none⟩
      ⟨.strip, 2, 2, 1⟩ ⟨0, 0, 0, 0⟩ 3).2.2.2.1 2 (by norm_num) (by norm_num)
  rw [h]
  norm_num

/-- Counterexample to C4 as stated: with `B = -1`, `Df = 2` and
`Dw = Df + B = 1`, the returned correction factor is `0.5`, not the claimed
boundary value `1`. -/
theorem C4_counterexample :
    (2 : ℝ) + (-1) = 1 ∧
    (calculateBearingCapacity ⟨.other, 0, 0, 18, 10, none, none⟩
        ⟨.strip, -1, 1, 2⟩ ⟨0, 0, 0, 0⟩ (some 1) 2).W_prime = 0.5 ∧
    (0.5 : ℝ) ≠ 1 := by
  refine ⟨by norm_num, ?_, by norm_num⟩
  rw [res_W_prime]
  norm_num [W_prime_of]

/-- C5: for every input combination the returned record satisfies the exact
algebraic identities `qu = term1 + term2 + term3`, `qnu = qu − q_surcharge`
and `qs = qns + q_surcharge`. -/
theorem C5_capacity_identities (soil : SoilProperties) (foundation : FoundationProperties)
    (load : LoadingConditions) (water_table_depth : Option ℝ) (FOS : ℝ) :
    (calculateBearingCapacity soil foundation load water_table_depth FOS).qu =
      (calculateBearingCapacity soil foundation load water_table_depth FOS).term1 +
      (calculateBearingCapacity soil foundation load water_table_depth FOS).term2 +
      (calculateBearingCapacity soil foundation load water_table_depth FOS).term3 ∧
    (calculateBearingCapacity soil foundation load water_table_depth FOS).qnu =
      (calculateBearingCapacity soil foundation load water_table_depth FOS).qu -
      q_surcharge_of soil.gamma soil.gamma_sub foundation.Df water_table_depth ∧
    (calculateBearingCapacity soil foundation load water_table_depth FOS).qs =
      (calculateBearingCapacity soil foundation load water_table_depth FOS).qns +
      q_surcharge_of soil.gamma soil.gamma_sub foundation.Df water_table_depth :=
  ⟨rfl, rfl, rfl⟩

/-- C6: for every input, the returned status follows the fixed priority
order: `SETTLEMENT_GOVERNING` whenever `settlement > 25` (irrespective of the
eccentricity flag); otherwise `HIGH_ECCENTRICITY` whenever the
high-eccentricity flag holds; otherwise `SAFE`. -/
theorem C6_status_priority (soil : SoilProperties) (foundation : FoundationProperties)
    (load : LoadingConditions) (water_table_depth : Option ℝ) (FOS : ℝ) :
    ((calculateBearingCapacity soil foundation load water_table_depth FOS).settlement > 25 →
      (calculateBearingCapacity soil foundation load water_table_depth FOS).status =
        .SETTLEMENT_GOVERNING) ∧
    (¬ (calculateBearingCapacity soil foundation load water_table_depth FOS).settlement > 25 →
      (calculateBearingCapacity soil foundation load water_table_depth FOS).eccentricity_check →
      (calculateBearingCapacity soil foundation load water_table_depth FOS).status =
        .HIGH_ECCENTRICITY) ∧
    (¬ (calculateBearingCapacity soil foundation load water_table_depth FOS).settlement > 25 →
      ¬ (calculateBearingCapacity soil foundation load water_table_depth FOS).eccentricity_check →
      (calculateBearingCapacity soil foundation load water_table_depth FOS).status =
        .SAFE) := by
  refine ⟨fun h => ?_, fun h1 h2 => ?_, fun h1 h2 => ?_⟩
  · rw [res_status]; simp only [status_of]; rw [if_pos h]
  · rw [res_status]; simp only [status_of]; rw [if_neg h1, if_pos h2]
  · rw [res_status]; simp only [status_of]; rw [if_neg h1, if_neg h2]

/-- Witness for C6: a cohesive-clay input whose fallback settlement
`qs / 50 · 25 = 128.5` exceeds the 25 mm limit, so the status is
`SETTLEMENT_GOVERNING`. -/
theorem C6_status_priority_witness :
    (calculateBearingCapacity ⟨.cohesiveClay, 100, 0, 18, 10, none, none⟩
        ⟨.strip, 1, 1, 0⟩ ⟨0, 0, 0, 0⟩ none 2).status = .SETTLEMENT_GOVERNING := by
  have hs : (calculateBearingCapacity ⟨.cohesiveClay, 100, 0, 18, 10, none, none⟩
      ⟨.strip, 1, 1, 0⟩ ⟨0, 0, 0, 0⟩ none 2).settlement = 128.5 := by
    simp only [calculateBearingCapacity]
    norm_num [ex_of, ey_of, effective_dim, q_surcharge_of, W_prime_of, Nc_of, Nq_of,
      Ngamma_of, alpha_calc, phi_temp_calc, max_def]
  exact (C6_status_priority ⟨.cohesiveClay, 100, 0, 18, 10, none, none⟩
    ⟨.strip, 1, 1, 0⟩ ⟨0, 0, 0, 0⟩ none 2).1 (by rw [hs]; norm_num)

/-- C8 (amended): the inclination factors satisfy `ic = iq = (1 − α/90)²` and
`iγ = (1 − α/φ_temp)²`, where `α = atan(H/V)` in degrees when `V > 0` and
`α = 0` whenever `V ≤ 0` (not only at `V = 0`), and `φ_temp` substitutes the
small positive epsilon `0.001` for `φ` exactly when `φ = 0`. -/
theorem C8_inclination_factors (soil : SoilProperties) (foundation : FoundationProperties)
    (load : LoadingConditions) (water_table_depth : Option ℝ) (FOS : ℝ) :
    (calculateBearingCapacity soil foundation load water_table_depth FOS).ic =
      (1 - alpha_calc load.V load.H / 90) ^ 2 ∧
    (calculateBearingCapacity soil foundation load water_table_depth FOS).iq =
      (calculateBearingCapacity soil foundation load water_table_depth FOS).ic ∧
    (calculateBearingCapacity soil foundation load water_table_depth FOS).igamma =
      (1 - alpha_calc load.V load.H / phi_temp_calc soil.phi) ^ 2 ∧
    (load.V > 0 → alpha_calc load.V load.H = rad2deg (Real.arctan (load.H / load.V))) ∧
    (load.V ≤ 0 → alpha_calc load.V load.H = 0) ∧
    (soil.phi = 0 → phi_temp_calc soil.phi = 0.001) ∧
    (soil.phi ≠ 0 → phi_temp_calc soil.phi = soil.phi) ∧
    (0 : ℝ) < 0.001 := by
  refine ⟨res_ic soil foundation load water_table_depth FOS,
    res_iq soil foundation load water_table_depth FOS,
    res_igamma soil foundation load water_table_depth FOS,
    fun h => ?_, fun h => ?_, fun h => ?_, fun h => ?_, by norm_num⟩
  · simp only [alpha_calc]; rw [if_pos h]
  · simp only [alpha_calc]; rw [if_neg (not_lt.mpr h)]
  · simp only [phi_temp_calc]; rw [if_pos h]
  · simp only [phi_temp_calc]; rw [if_neg h]

/-- Witness for C8 at `V = 1 > 0`, `H = 1`, `φ = 0`. -/
theorem C8_inclination_factors_witness :
    (calculateBearingCapacity ⟨.cohesiveClay, 25, 0, 18, 10, none, none⟩
        ⟨.strip, 1, 1, 0⟩ ⟨1, 1, 0, 0⟩ none 3).ic =
      (1 - alpha_calc 1 1 / 90) ^ 2 ∧
    alpha_calc 1 1 = rad2deg (Real.arctan (1 / 1)) ∧
    phi_temp_calc 0 = 0.001 := by
  have h := C8_inclination_factors ⟨.cohesiveClay, 25, 0, 18, 10, none, none⟩
      ⟨.strip, 1, 1, 0⟩ ⟨1, 1, 0, 0⟩ none 3
  exact ⟨h.1, h.2.2.2.1 (by norm_num), h.2.2.2.2.2.1 rfl⟩

/-- Counterexample to C8 as stated: at `V = -1`, `H = 1` the engine zeroes the
inclination angle, giving `ic = 1`, while the claimed formula
`(1 − atan(H/V)·(180/π)/90)²` evaluates to `2.25`. -/
theorem C8_counterexample :
    (calculateBearingCapacity ⟨.other, 0, 10, 18, 10, none, none⟩
        ⟨.strip, 1, 1, 0⟩ ⟨-1, 1, 0, 0⟩ none 2).ic = 1 ∧
    (1 - rad2deg (Real.arctan (1 / (-1 : ℝ))) / 90) ^ 2 = 2.25 ∧
    (1 : ℝ) ≠ 2.25 := by
  refine ⟨?_, ?_, by norm_num⟩
  · rw [res_ic]
    norm_num [alpha_calc]
  · have h1 : (1 : ℝ) / (-1 : ℝ) = -1 := by norm_num
    have h2 : Real.arctan (-1 : ℝ) = -(Real.pi / 4) := by
      rw [show (-1 : ℝ) = -(1 : ℝ) by norm_num, Real.arctan_neg, Real.arctan_one]
    have h3 : rad2deg (-(Real.pi / 4)) = -45 := by
      unfold rad2deg
      field_simp
      ring
    rw [h1, h2, h3]
    norm_num

/-- C9: the evaluation is deterministic: two calls with identical input
structures return identical `CalculationResults` records. -/
theorem C9_deterministic (s1 s2 : SoilProperties) (f1 f2 : FoundationProperties)
    (l1 l2 : LoadingConditions) (w1 w2 : Option ℝ) (FOS1 FOS2 : ℝ)
    (hs : s1 = s2) (hf : f1 = f2) (hl : l1 = l2) (hw : w1 = w2) (hFOS : FOS1 = FOS2) :
    calculateBearingCapacity s1 f1 l1 w1 FOS1 =
      calculateBearingCapacity s2 f2 l2 w2 FOS2 := by
  subst hs hf hl hw hFOS
  rfl

/-- Witness for C9 at the worked example of the specification. -/
theorem C9_deterministic_witness :
    calculateBearingCapacity ⟨.cohesionlessSand, 0, 30, 18, 10, some 15, none⟩
        ⟨.square, 2, 2, 1.5⟩ ⟨500, 0, 0, 0⟩ (some 5) 3 =
      calculateBearingCapacity ⟨.cohesionlessSand, 0, 30, 18, 10, some 15, none⟩
        ⟨.square, 2, 2, 1.5⟩ ⟨500, 0, 0, 0⟩ (some 5) 3 :=
  C9_deterministic _ _ _ _ _ _ _ _ _ _ rfl rfl rfl rfl rfl

/-- C10: for every input the water-table correction factor in the returned
record satisfies `0.5 ≤ W_prime ≤ 1`. -/
theorem C10_W_prime_bounded (soil : SoilProperties) (foundation : FoundationProperties)
    (load : LoadingConditions) (water_table_depth : Option ℝ) (FOS : ℝ) :
    0.5 ≤ (calculateBearingCapacity soil foundation load water_table_depth FOS).W_prime ∧
    (calculateBearingCapacity soil foundation load water_table_depth FOS).W_prime ≤ 1 := by
  rw [res_W_prime]
  rcases water_table_depth with _ | dw
  · norm_num [W_prime_of]
  · simp only [W_prime_of]
    split_ifs with h1 h2
    · norm_num
    · norm_num
    · push_neg at h1 h2
      have hB : 0 < foundation.B := by linarith
      have h0 : 0 ≤ (dw - foundation.Df) / foundation.B :=
        le_of_lt (div_pos (by linarith) hB)
      have hlt : (dw - foundation.Df) / foundation.B < 1 :=
        (div_lt_one hB).mpr (by linarith)
      constructor <;> nlinarith

end VasudhaGeotech
